import Mathlib

/-!
Shallow embedding of the remote-plugin contract implemented in
`src/home_console_sdk/remote_plugin.py` of home-console/python-sdk.

The embedding follows the source:
  * `Service` is the dict appended by `RemotePluginBase.register_service`
    (keys `name`, `endpoint`, `method`, and `description` only when the
    description is non-empty).
  * `PluginState` is the mutable instance state set up by
    `RemotePluginBase.__init__` (`_services`, `_loaded`, `_started`).
  * `register_service`, `get_metadata` and `validate_metadata` embed the
    methods of the same names; a raised Python exception is modelled as
    `Except.error` carrying the exception text.
  * `load_handler`, `start_handler`, `stop_handler` and `unload_handler`
    embed the inner handlers of `create_lifecycle_handlers`; the plugin
    author's abstract callback (`on_load`, `on_start`, `on_stop`,
    `on_unload`) is passed in as its outcome, `Except.ok ()` for a normal
    return and `Except.error e` for a raised exception with text `e`.
  * `PyVal` models the dynamically-typed values a Python caller can place
    in `self._services`, which `validate_metadata` inspects with
    `isinstance` checks.
-/

/-- A registered service descriptor: the dict built by
`RemotePluginBase.register_service` (keys `name`, `endpoint`, `method`,
plus `description` only when non-empty). -/
structure Service where
  name : String
  endpoint : String
  method : String
  description : Option String
  deriving DecidableEq, Repr

/-- The mutable fields of a `RemotePluginBase` instance:
`self._services`, `self._loaded`, `self._started`. -/
structure PluginState where
  services : List Service
  loaded : Bool
  started : Bool
  deriving DecidableEq, Repr

/-- `RemotePluginBase.__init__`: empty service list, both flags false. -/
def RemotePluginBase.init : PluginState :=
  { services := [], loaded := false, started := false }

/-- Python `str.upper()`: character-wise upper-casing. -/
def py_upper (s : String) : String :=
  ⟨s.data.map Char.toUpper⟩

/-- Python `str.startswith(pre)`: `pre` is a prefix of the string. -/
def py_startswith (s pre : String) : Bool :=
  pre.data.isPrefixOf s.data

/-- `RemotePluginBase.register_service`: rejects an endpoint that does not
start with `/`, then a method whose upper-casing is neither `GET` nor
`POST` (each `raise ValueError`, modelled as `Except.error` with the
source's message); otherwise appends exactly one descriptor, with the
method stored upper-cased and the description kept only when non-empty.
A raised error leaves the registry untouched: the error branch returns no
new list. -/
def register_service (services : List Service) (name endpoint method description : String) :
    Except String (List Service) :=
  if !py_startswith endpoint "/" then
    Except.error ("endpoint должен начинаться с /: " ++ endpoint)
  else if !(py_upper method == "GET" || py_upper method == "POST") then
    Except.error ("method должен быть GET или POST: " ++ method)
  else
    Except.ok (services ++ [{ name := name, endpoint := endpoint, method := py_upper method,
                              description := if description = "" then none
                                             else some description }])

/-- The class-level identity attributes of `RemotePluginBase`:
`name`, `type`, `mode`, `version`, `description`, `author`. -/
structure PluginIdentity where
  name : String
  type : String
  mode : String
  version : String
  description : String
  author : String
  deriving DecidableEq, Repr

/-- The dict returned by `RemotePluginBase.get_metadata`. -/
structure Metadata where
  name : String
  type : String
  mode : String
  version : String
  description : String
  author : String
  services : List Service
  deriving DecidableEq, Repr

/-- `RemotePluginBase.get_metadata`: the identity attributes together with
the current `self._services` list. -/
def get_metadata (ident : PluginIdentity) (state : PluginState) : Metadata :=
  { name := ident.name, type := ident.type, mode := ident.mode, version := ident.version,
    description := ident.description, author := ident.author, services := state.services }

/-- The JSON body returned by a lifecycle handler:
fields `status` and `message`. -/
structure Response where
  status : String
  message : String
  deriving DecidableEq, Repr

/-- `load_handler` inside `create_lifecycle_handlers`: runs `on_load`
(its outcome is the argument), on success sets `_loaded = True` and
returns ok, on an exception returns a structured error and touches no
state. -/
def load_handler (on_load : Except String Unit) (p : PluginState) : Response × PluginState :=
  match on_load with
  | Except.ok _ => ({ status := "ok", message := "plugin loaded" }, { p with loaded := true })
  | Except.error e => ({ status := "error", message := e }, p)

/-- `start_handler` inside `create_lifecycle_handlers`: runs `on_start`,
on success sets `_started = True` and returns ok, on an exception returns
a structured error and touches no state. -/
def start_handler (on_start : Except String Unit) (p : PluginState) : Response × PluginState :=
  match on_start with
  | Except.ok _ => ({ status := "ok", message := "plugin started" }, { p with started := true })
  | Except.error e => ({ status := "error", message := e }, p)

/-- `stop_handler` inside `create_lifecycle_handlers`: runs `on_stop`,
on success sets `_started = False` and returns ok, on an exception returns
a structured error and touches no state. -/
def stop_handler (on_stop : Except String Unit) (p : PluginState) : Response × PluginState :=
  match on_stop with
  | Except.ok _ => ({ status := "ok", message := "plugin stopped" }, { p with started := false })
  | Except.error e => ({ status := "error", message := e }, p)

/-- `unload_handler` inside `create_lifecycle_handlers`: runs `on_unload`,
on success sets `_loaded = False` and `_started = False` and returns ok;
on an exception it returns a structured error and touches no state (the
two assignments sit after the `await` inside the `try`, so a raising
`on_unload` skips them). -/
def unload_handler (on_unload : Except String Unit) (p : PluginState) : Response × PluginState :=
  match on_unload with
  | Except.ok _ =>
    ({ status := "ok", message := "plugin unloaded" }, { p with loaded := false, started := false })
  | Except.error e => ({ status := "error", message := e }, p)

/-- The four lifecycle-mutating endpoints of `create_lifecycle_handlers`. -/
inductive LifecycleOp where
  | load
  | start
  | stop
  | unload
  deriving DecidableEq, Repr

/-- Dispatch one lifecycle call to its handler, the callback outcome
supplied alongside. -/
def run_handler (op : LifecycleOp) (outcome : Except String Unit) (p : PluginState) :
    Response × PluginState :=
  match op with
  | LifecycleOp.load => load_handler outcome p
  | LifecycleOp.start => start_handler outcome p
  | LifecycleOp.stop => stop_handler outcome p
  | LifecycleOp.unload => unload_handler outcome p

/-- Run a sequence of lifecycle calls, each paired with its callback
outcome, threading the plugin state. -/
def run_handlers (calls : List (LifecycleOp × Except String Unit)) (p : PluginState) :
    PluginState :=
  match calls with
  | [] => p
  | (op, outcome) :: rest => run_handlers rest (run_handler op outcome p).2

/-- Run the load handler once per listed `on_load` outcome, collecting
every response and the final state. -/
def run_loads : List (Except String Unit) → PluginState → List Response × PluginState
  | [], p => ([], p)
  | o :: rest, p =>
    ((load_handler o p).1 :: (run_loads rest (load_handler o p).2).1,
     (run_loads rest (load_handler o p).2).2)

/-- A dynamically-typed Python value as it can appear inside
`self._services` (strings, ints, lists, dicts with string keys are enough
to express every behaviour `validate_metadata` distinguishes). -/
inductive PyVal where
  | str : String → PyVal
  | int : Int → PyVal
  | list : List PyVal → PyVal
  | dict : List (String × PyVal) → PyVal

/-- The Python type name of a `PyVal`, as it appears in an
`AttributeError` message. -/
def PyVal.typeName : PyVal → String
  | PyVal.str _ => "str"
  | PyVal.int _ => "int"
  | PyVal.list _ => "list"
  | PyVal.dict _ => "dict"

mutual

/-- Python `repr()` of a `PyVal` (container elements are rendered with
`repr`, strings quoted). -/
def PyVal.pyrepr : PyVal → String
  | PyVal.str s => "\x27" ++ s ++ "\x27"
  | PyVal.int n => toString n
  | PyVal.list l => "[" ++ PyVal.pyreprList l ++ "]"
  | PyVal.dict l => "\x7b" ++ PyVal.pyreprDict l ++ "\x7d"

/-- Comma-separated `repr`s of list elements. -/
def PyVal.pyreprList : List PyVal → String
  | [] => ""
  | [v] => PyVal.pyrepr v
  | v :: rest => PyVal.pyrepr v ++ ", " ++ PyVal.pyreprList rest

/-- Comma-separated `repr`s of dict items. -/
def PyVal.pyreprDict : List (String × PyVal) → String
  | [] => ""
  | [(k, v)] => "\x27" ++ k ++ "\x27: " ++ PyVal.pyrepr v
  | (k, v) :: rest => "\x27" ++ k ++ "\x27: " ++ PyVal.pyrepr v ++ ", " ++ PyVal.pyreprDict rest

end

/-- Python `str()` of a `PyVal`: a bare string for `str`, `repr` otherwise
(this is what an f-string interpolates). -/
def PyVal.pystr : PyVal → String
  | PyVal.str s => s
  | v => PyVal.pyrepr v

/-- Python membership test `svc["method"] in ["GET", "POST"]`. -/
def PyVal.isGetOrPost : PyVal → Bool
  | PyVal.str s => s = "GET" || s = "POST"
  | _ => false

/-- The diagnostics the per-service loop of `validate_metadata` appends
for the `method` field of one service dict: present and outside
GET/POST produces one message, absent produces none. -/
def method_errors (i : Nat) (entries : List (String × PyVal)) : List String :=
  match entries.lookup "method" with
  | some v =>
    if v.isGetOrPost then []
    else ["Service " ++ toString i ++ " method should be GET or POST: " ++ v.pystr]
  | none => []

/-- One iteration of the `for i, svc in enumerate(self._services)` loop of
`validate_metadata`: a non-dict entry yields its single diagnostic and a
`continue`; a dict is checked for its three required keys, then the
endpoint slash check runs (`svc["endpoint"].startswith("/")` raises
`AttributeError` when the stored endpoint is not a string, modelled as
`Except.error`), then the method check. -/
def validate_service (i : Nat) (svc : PyVal) : Except String (List String) :=
  match svc with
  | PyVal.dict entries =>
    let missing :=
      (if (entries.lookup "name").isNone
        then ["Service " ++ toString i ++ " missing \x27name\x27"] else []) ++
      (if (entries.lookup "endpoint").isNone
        then ["Service " ++ toString i ++ " missing \x27endpoint\x27"] else []) ++
      (if (entries.lookup "method").isNone
        then ["Service " ++ toString i ++ " missing \x27method\x27"] else [])
    match entries.lookup "endpoint" with
    | some (PyVal.str s) =>
      Except.ok (missing ++
        (if !py_startswith s "/"
          then ["Service " ++ toString i ++ " endpoint should start with /: " ++ s] else []) ++
        method_errors i entries)
    | some v =>
      Except.error ("AttributeError: \x27" ++ v.typeName ++
        "\x27 object has no attribute \x27startswith\x27")
    | none => Except.ok (missing ++ method_errors i entries)
  | _ => Except.ok ["Service " ++ toString i ++ " is not a dict"]

/-- The whole per-service loop of `validate_metadata`, starting at index
`i`: concatenates each service's diagnostics in order; a raised
`AttributeError` aborts the loop (the Python exception propagates and the
collected list is lost). -/
def validate_services (i : Nat) : List PyVal → Except String (List String)
  | [] => Except.ok []
  | svc :: rest =>
    match validate_service i svc with
    | Except.error e => Except.error e
    | Except.ok es =>
      match validate_services (i + 1) rest with
      | Except.error e => Except.error e
      | Except.ok rest_es => Except.ok (es ++ rest_es)

/-- `RemotePluginBase.validate_metadata`: the name check (`not self.name
or self.name == "unknown_plugin"`), the version check (`self.version and
self.version.count(".") < 2` — skipped entirely for a falsy, i.e. empty,
version), the `isinstance(self._services, list)` check, and the
per-service loop; diagnostics are appended in that order. -/
def validate_metadata (name version : String) (services : PyVal) :
    Except String (List String) :=
  let head_errors :=
    (if name = "" ∨ name = "unknown_plugin"
      then ["Plugin name is not set or is default"] else []) ++
    (if version ≠ "" ∧ version.data.count '.' < 2
      then ["Version should be X.Y.Z format: " ++ version] else [])
  match services with
  | PyVal.list svcs =>
    match validate_services 0 svcs with
    | Except.error e => Except.error e
    | Except.ok es => Except.ok (head_errors ++ es)
  | _ => Except.ok (head_errors ++ ["services must be a list"])

/-- Statement-side predicate for the amended C9 claim: in a service entry
that is a dict, the value stored under `"endpoint"`, when present, is a
string (so `svc["endpoint"].startswith` is an attribute that exists).
Non-dict entries and dict entries without an `"endpoint"` key satisfy it
vacuously. -/
def endpoint_is_string : PyVal → Bool
  | PyVal.dict entries =>
    match entries.lookup "endpoint" with
    | some (PyVal.str _) => true
    | some _ => false
    | none => true
  | _ => true

/-- Helper shared by C3 and C6: when the endpoint starts with `/` and the
upper-cased method is GET or POST, `register_service` returns the old
registry with exactly one descriptor appended, its method upper-cased and
its description dropped when empty. -/
theorem register_service_eq_ok (l : List Service) (n e m d : String)
    (h1 : py_startswith e "/" = true) (h2 : py_upper m = "GET" ∨ py_upper m = "POST") :
    register_service l n e m d =
      Except.ok (l ++ [{ name := n, endpoint := e, method := py_upper m,
                         description := if d = "" then none else some d }]) := by
  rcases h2 with h2 | h2 <;> simp [register_service, h1, h2]

/-- Helper for C3: when the endpoint does not start with `/` or the
upper-cased method is neither GET nor POST, `register_service` raises a
`ValueError` (an `Except.error`). -/
theorem register_service_eq_err (l : List Service) (n e m d : String)
    (h : ¬(py_startswith e "/" = true ∧ (py_upper m = "GET" ∨ py_upper m = "POST"))) :
    ∃ err, register_service l n e m d = Except.error err := by
  by_cases h1 : py_startswith e "/" = true
  · have h2 : ¬(py_upper m = "GET" ∨ py_upper m = "POST") := fun hc => h ⟨h1, hc⟩
    push_neg at h2
    exact ⟨"method должен быть GET или POST: " ++ m,
      by simp [register_service, h1, h2.1, h2.2]⟩
  · exact ⟨"endpoint должен начинаться с /: " ++ e, by simp [register_service, h1]⟩

/-- Claim C1 (code bug evidence): when `on_unload` raises (here with text
"boom") in the fully-loaded state, the `unload` handler of
`create_lifecycle_handlers` returns status "error" — not the "ok" the
specification requires — and leaves `_loaded` and `_started` at their
prior values instead of clearing them; nothing is logged (the module never
imports logging). The exception is still swallowed, but the claimed
ok-response and UNLOADED transition do not happen. -/
theorem unload_error_returns_error_and_keeps_flags :
    unload_handler (Except.error "boom") { services := [], loaded := true, started := true } =
      ({ status := "error", message := "boom" },
       { services := [], loaded := true, started := true }) :=
  rfl

/-- Claim C2: for the load, start and stop handlers, a raising callback
(with exception text `e`) produces exactly the structured response
`{status := "error", message := e}` — nothing is propagated — and the
returned plugin state is the untouched input state, so `_loaded` and
`_started` retain their prior values. -/
theorem lifecycle_error_responses_leave_state_unchanged (p : PluginState) (e : String) :
    load_handler (Except.error e) p = ({ status := "error", message := e }, p) ∧
    start_handler (Except.error e) p = ({ status := "error", message := e }, p) ∧
    stop_handler (Except.error e) p = ({ status := "error", message := e }, p) :=
  ⟨rfl, rfl, rfl⟩

/-- Claim C3: `register_service` succeeds exactly when the endpoint starts
with `/` and the method is, case-insensitively (via `upper()`), GET or
POST; on success the result is the old registry plus exactly one appended
descriptor whose method is stored upper-cased; otherwise it raises a
`ValueError` immediately, producing no new registry (the registry is
unchanged). -/
theorem register_service_success_iff_valid (l : List Service) (n e m d : String) :
    ((∃ l', register_service l n e m d = Except.ok l') ↔
      (py_startswith e "/" = true ∧ (py_upper m = "GET" ∨ py_upper m = "POST"))) ∧
    (∀ l', register_service l n e m d = Except.ok l' →
      l' = l ++ [{ name := n, endpoint := e, method := py_upper m,
                   description := if d = "" then none else some d }]) ∧
    (¬(py_startswith e "/" = true ∧ (py_upper m = "GET" ∨ py_upper m = "POST")) →
      ∃ err, register_service l n e m d = Except.error err) := by
  refine ⟨⟨?_, ?_⟩, ?_, register_service_eq_err l n e m d⟩
  · rintro ⟨l', hl'⟩
    by_contra hc
    obtain ⟨err, herr⟩ := register_service_eq_err l n e m d hc
    rw [herr] at hl'
    cases hl'
  · intro hv
    exact ⟨_, register_service_eq_ok l n e m d hv.1 hv.2⟩
  · intro l' hl'
    by_cases hv : py_startswith e "/" = true ∧ (py_upper m = "GET" ∨ py_upper m = "POST")
    · have hr := register_service_eq_ok l n e m d hv.1 hv.2
      rw [hr] at hl'
      exact (Except.ok.inj hl').symm
    · obtain ⟨err, herr⟩ := register_service_eq_err l n e m d hv
      rw [herr] at hl'
      cases hl'

/-- Helper for C4: no single lifecycle handler ever changes the
`_services` list, whatever the callback outcome. -/
theorem run_handler_keeps_services (op : LifecycleOp) (o : Except String Unit)
    (p : PluginState) : ((run_handler op o p).2).services = p.services := by
  cases op <;> cases o <;> rfl

/-- Helper for C4: no sequence of lifecycle handler invocations changes
the `_services` list. -/
theorem run_handlers_keep_services (calls : List (LifecycleOp × Except String Unit))
    (p : PluginState) : (run_handlers calls p).services = p.services := by
  induction calls generalizing p with
  | nil => rfl
  | cons c rest ih =>
    obtain ⟨op, o⟩ := c
    calc (run_handlers ((op, o) :: rest) p).services
        = (run_handlers rest (run_handler op o p).2).services := rfl
      _ = ((run_handler op o p).2).services := ih _
      _ = p.services := run_handler_keeps_services op o p

/-- Claim C4: `get_metadata` answers in every lifecycle state with the
identity fields (name, type, mode, version, description, author) and the
full current service list in registration order, and its value is
unchanged by any sequence of load/start/stop/unload handler invocations,
whatever each callback's outcome — so metadata is constant through all
lifecycle transitions, including before the first load. -/
theorem get_metadata_constant_under_lifecycle (ident : PluginIdentity)
    (calls : List (LifecycleOp × Except String Unit)) (p : PluginState) :
    get_metadata ident (run_handlers calls p) = get_metadata ident p ∧
    (get_metadata ident p).name = ident.name ∧
    (get_metadata ident p).type = ident.type ∧
    (get_metadata ident p).mode = ident.mode ∧
    (get_metadata ident p).version = ident.version ∧
    (get_metadata ident p).description = ident.description ∧
    (get_metadata ident p).author = ident.author ∧
    (get_metadata ident p).services = p.services := by
  refine ⟨?_, rfl, rfl, rfl, rfl, rfl, rfl, rfl⟩
  unfold get_metadata
  rw [run_handlers_keep_services]

/-- Helper for C5: running the load handler any number of times with a
non-raising `on_load` from a loaded state returns the state unchanged and
only ok responses. -/
theorem run_loads_ok_loaded (outcomes : List (Except String Unit)) (p : PluginState)
    (hok : ∀ o ∈ outcomes, o = Except.ok ()) (hl : p.loaded = true) :
    (run_loads outcomes p).2 = p ∧ ∀ r ∈ (run_loads outcomes p).1, r.status = "ok" := by
  induction outcomes generalizing p with
  | nil => exact ⟨rfl, fun r hr => nomatch hr⟩
  | cons o rest ih =>
    have ho : o = Except.ok () := hok o (List.mem_cons_self o rest)
    subst ho
    have hp2 : (load_handler (Except.ok ()) p).2 = p := by
      show ({ p with loaded := true } : PluginState) = p
      rw [← hl]
    have hrest := ih (load_handler (Except.ok ()) p).2
      (fun o hm => hok o (List.mem_cons_of_mem _ hm)) (by rw [hp2]; exact hl)
    constructor
    · show (run_loads rest (load_handler (Except.ok ()) p).2).2 = p
      rw [hp2] at hrest ⊢
      exact hrest.1
    · intro r hr
      rcases List.mem_cons.mp hr with h | h
      · rw [h]; rfl
      · exact hrest.2 r h

/-- Claim C5: invoking the load handler n ≥ 1 times in a row on an
already-loaded plugin, with `on_load` never raising, leaves the state
exactly as it was (`_loaded` stays true, `_started` untouched) and every
single invocation answers with status "ok". -/
theorem repeated_load_noop_success (outcomes : List (Except String Unit)) (p : PluginState)
    (hn : 1 ≤ outcomes.length) (hok : ∀ o ∈ outcomes, o = Except.ok ())
    (hl : p.loaded = true) :
    (run_loads outcomes p).2 = p ∧ (run_loads outcomes p).2.loaded = true ∧
    ∀ r ∈ (run_loads outcomes p).1, r.status = "ok" := by
  obtain ⟨h1, h2⟩ := run_loads_ok_loaded outcomes p hok hl
  exact ⟨h1, by rw [h1]; exact hl, h2⟩

/-- Witness for C5 at n = 2 on a loaded, not-started plugin. -/
theorem repeated_load_noop_success_witness :
    (run_loads [Except.ok (), Except.ok ()]
        { services := [], loaded := true, started := false }).2 =
      { services := [], loaded := true, started := false } ∧
    (run_loads [Except.ok (), Except.ok ()]
        { services := [], loaded := true, started := false }).2.loaded = true ∧
    ∀ r ∈ (run_loads [Except.ok (), Except.ok ()]
        { services := [], loaded := true, started := false }).1, r.status = "ok" :=
  repeated_load_noop_success [Except.ok (), Except.ok ()] _ (by decide) (by simp) rfl

/-- Claim C6 counterexample: two successful `register_service` calls under
the same name "dup" both succeed and leave two descriptors that carry the
same name — `register_service` enforces no name uniqueness. -/
theorem register_service_duplicate_name_succeeds :
    register_service [] "dup" "/a" "GET" "" =
      Except.ok [{ name := "dup", endpoint := "/a", method := "GET", description := none }] ∧
    register_service [{ name := "dup", endpoint := "/a", method := "GET", description := none }]
        "dup" "/b" "POST" "" =
      Except.ok [{ name := "dup", endpoint := "/a", method := "GET", description := none },
                 { name := "dup", endpoint := "/b", method := "POST", description := none }] :=
  ⟨rfl, rfl⟩

/-- Claim C6 as amended: `register_service` does not enforce name
uniqueness — registration under a name already present in the registry
still succeeds (given a valid endpoint and method) and appends a duplicate
entry, so the name then occurs at least twice. -/
theorem register_service_no_name_uniqueness (l : List Service) (n e m d : String)
    (h1 : py_startswith e "/" = true) (h2 : py_upper m = "GET" ∨ py_upper m = "POST")
    (hn : n ∈ l.map Service.name) :
    ∃ l', register_service l n e m d = Except.ok l' ∧
      2 ≤ (l'.map Service.name).count n := by
  refine ⟨_, register_service_eq_ok l n e m d h1 h2, ?_⟩
  rw [List.map_append, List.count_append]
  simp
  exact List.mem_map.mp hn

/-- Witness for the amended C6 on a registry already holding "dup". -/
theorem register_service_no_name_uniqueness_witness :
    ∃ l', register_service [{ name := "dup", endpoint := "/a", method := "GET",
                              description := none }] "dup" "/b" "POST" "" = Except.ok l' ∧
      2 ≤ (l'.map Service.name).count "dup" :=
  register_service_no_name_uniqueness
    [{ name := "dup", endpoint := "/a", method := "GET", description := none }]
    "dup" "/b" "POST" "" (by decide) (Or.inr (by decide)) (by simp)

/-- Claim C7 counterexample: the empty version string has fewer than two
`.` characters, yet `validate_metadata` returns no diagnostic at all for
it — the source guards the check with `if self.version and ...`, so a
falsy (empty) version skips the version check entirely. -/
theorem validate_metadata_empty_version_no_diagnostic :
    validate_metadata "metrics" "" (PyVal.list []) = Except.ok [] ∧
    "".data.count '.' < 2 :=
  ⟨rfl, by decide⟩

/-- Claim C7 as amended: `validate_metadata` returns the version-format
diagnostic whenever the version string is non-empty and contains fewer
than two `.` characters (the empty version produces no version
diagnostic, see the counterexample). -/
theorem validate_metadata_version_diagnostic_nonempty (name version : String)
    (svcs : List PyVal) (l : List String)
    (hok : validate_metadata name version (PyVal.list svcs) = Except.ok l)
    (hne : version ≠ "") (hdots : version.data.count '.' < 2) :
    ("Version should be X.Y.Z format: " ++ version) ∈ l := by
  simp only [validate_metadata] at hok
  cases hvs : validate_services 0 svcs with
  | error e => rw [hvs] at hok; cases hok
  | ok es =>
    rw [hvs] at hok
    have hl : l = ((if name = "" ∨ name = "unknown_plugin"
        then ["Plugin name is not set or is default"] else []) ++
      (if version ≠ "" ∧ version.data.count '.' < 2
        then ["Version should be X.Y.Z format: " ++ version] else [])) ++ es :=
      (Except.ok.inj hok).symm
    rw [hl]
    simp [hne, hdots]

/-- Witness for the amended C7 at version "1.0". -/
theorem validate_metadata_version_diagnostic_nonempty_witness :
    validate_metadata "metrics" "1.0" (PyVal.list []) =
      Except.ok ["Version should be X.Y.Z format: 1.0"] ∧
    ("Version should be X.Y.Z format: " ++ "1.0") ∈
      ["Version should be X.Y.Z format: 1.0"] :=
  ⟨rfl, validate_metadata_version_diagnostic_nonempty "metrics" "1.0" [] _ rfl
    (by decide) (by decide)⟩

/-- Claim C8: `validate_metadata` on the identity (name "unknown_plugin",
version "0.1.0") with no services returns exactly the one name-related
diagnostic (a non-empty list), and on (name "metrics", version "1.0.0")
with no services returns the empty list. -/
theorem validate_metadata_identity_examples :
    validate_metadata "unknown_plugin" "0.1.0" (PyVal.list []) =
      Except.ok ["Plugin name is not set or is default"] ∧
    validate_metadata "metrics" "1.0.0" (PyVal.list []) = Except.ok [] :=
  ⟨rfl, rfl⟩

/-- Claim C9 counterexample: with a service dict whose "endpoint" value is
the integer 1, `validate_metadata` raises an `AttributeError` (from
`svc["endpoint"].startswith("/")`) instead of returning a diagnostic
list — it is not total over malformed entries. -/
theorem validate_metadata_attributeerror_nonstring_endpoint :
    validate_metadata "metrics" "1.0.0"
      (PyVal.list [PyVal.dict [("name", PyVal.str "a"), ("endpoint", PyVal.int 1),
                               ("method", PyVal.str "GET")]]) =
    Except.error "AttributeError: \x27int\x27 object has no attribute \x27startswith\x27" :=
  rfl

/-- Helper for C9: one loop iteration of `validate_metadata` returns a
diagnostic list (never raises) when the entry's "endpoint" value, if the
entry is a dict that has one, is a string. -/
theorem validate_service_ok_of_string_endpoint (i : Nat) (svc : PyVal)
    (h : endpoint_is_string svc = true) :
    ∃ es, validate_service i svc = Except.ok es := by
  cases hv : validate_service i svc with
  | ok es => exact ⟨es, rfl⟩
  | error e =>
    exfalso
    cases svc with
    | dict entries =>
      cases hl : entries.lookup "endpoint" with
      | none => simp [validate_service, hl] at hv
      | some v =>
        cases v with
        | str s => simp [validate_service, hl] at hv
        | int n => simp [endpoint_is_string, hl] at h
        | list l => simp [endpoint_is_string, hl] at h
        | dict l => simp [endpoint_is_string, hl] at h
    | str s => simp [validate_service] at hv
    | int n => simp [validate_service] at hv
    | list l => simp [validate_service] at hv

/-- Helper for C9: the whole per-service loop returns a diagnostic list
when every entry satisfies `endpoint_is_string`. -/
theorem validate_services_ok_of_string_endpoints (svcs : List PyVal)
    (h : ∀ svc ∈ svcs, endpoint_is_string svc = true) :
    ∀ i, ∃ es, validate_services i svcs = Except.ok es := by
  induction svcs with
  | nil => exact fun i => ⟨[], rfl⟩
  | cons svc rest ih =>
    intro i
    obtain ⟨e1, h1⟩ := validate_service_ok_of_string_endpoint i svc
      (h svc (List.mem_cons_self svc rest))
    obtain ⟨es, hes⟩ := ih (fun s hs => h s (List.mem_cons_of_mem _ hs)) (i + 1)
    exact ⟨e1 ++ es, by simp [validate_services, h1, hes]⟩

/-- Claim C9 as amended: `validate_metadata` returns a (possibly empty)
diagnostic list for every identity and every service list in which each
dict entry's "endpoint" value, when present, is a string — malformed
entries such as non-dicts, missing fields or non-string methods are all
handled with diagnostics; only a present non-string "endpoint" value makes
it raise (see the counterexample). -/
theorem validate_metadata_ok_of_string_endpoints (name version : String) (svcs : List PyVal)
    (h : ∀ svc ∈ svcs, endpoint_is_string svc = true) :
    ∃ l, validate_metadata name version (PyVal.list svcs) = Except.ok l := by
  obtain ⟨es, hes⟩ := validate_services_ok_of_string_endpoints svcs h 0
  exact ⟨((if name = "" ∨ name = "unknown_plugin"
      then ["Plugin name is not set or is default"] else []) ++
    (if version ≠ "" ∧ version.data.count '.' < 2
      then ["Version should be X.Y.Z format: " ++ version] else [])) ++ es,
    by simp [validate_metadata, hes]⟩

/-- Witness for the amended C9 on a list with a non-dict entry and a dict
entry with a string endpoint and an invalid method. -/
theorem validate_metadata_ok_of_string_endpoints_witness :
    ∃ l, validate_metadata "metrics" "1.0.0"
      (PyVal.list [PyVal.int 7,
        PyVal.dict [("name", PyVal.str "a"), ("endpoint", PyVal.str "/a"),
                    ("method", PyVal.str "PUT")]]) = Except.ok l :=
  validate_metadata_ok_of_string_endpoints "metrics" "1.0.0" _ (by decide)

/-- Claim C10: the lifecycle handlers apply no state-based guards: with a
non-raising callback each of load, start, stop, unload answers "ok" from
every state; in particular stop on a freshly constructed (never loaded)
plugin succeeds leaving `_started` false, and start without any prior
load succeeds setting `_started` true while `_loaded` stays false. -/
theorem lifecycle_handlers_have_no_state_guards (p : PluginState) :
    (load_handler (Except.ok ()) p).1.status = "ok" ∧
    (start_handler (Except.ok ()) p).1.status = "ok" ∧
    (stop_handler (Except.ok ()) p).1.status = "ok" ∧
    (unload_handler (Except.ok ()) p).1.status = "ok" ∧
    (stop_handler (Except.ok ()) RemotePluginBase.init).2 =
      { services := [], loaded := false, started := false } ∧
    (start_handler (Except.ok ()) RemotePluginBase.init).2 =
      { services := [], loaded := false, started := true } :=
  ⟨rfl, rfl, rfl, rfl, rfl, rfl⟩
